import Mathlib

/-!
Verification of the BentoML remote runner client
(`src/bentoml/_internal/runner/runner_handle/remote.py`) against its
specification.  The Python code is shallowly embedded: strings are Lean
`String`s, Python dict lookups become association-list lookups returning
`Option`, raised exceptions become `Except` errors tagged by raise site,
and the mutable connector state of `RemoteRunnerClient` becomes an
explicit state-passing step function over a connector registry.
-/

namespace Remote

/-! ## Python string primitives used by the source -/

/-- Python `str.lower()` restricted to ASCII, which covers every string the
client manipulates (header values and URI schemes). -/
def pyLower (s : String) : String :=
  ⟨s.data.map Char.toLower⟩

/-- Python `str.startswith(p)`. -/
def pyStartswith (s p : String) : Bool :=
  p.data.isPrefixOf s.data

/-- Python `str.strip(chars)`: removes from BOTH ends every character that
occurs in `chars`, treating `chars` as a set (not as a prefix/suffix). -/
def pyStrip (chars : List Char) (s : String) : String :=
  ⟨((s.data.dropWhile (chars.contains ·)).reverse.dropWhile
      (chars.contains ·)).reverse⟩

/-! ## `urllib.parse.urlparse`, restricted to scheme and netloc

The source only reads `parsed.scheme` and `parsed.netloc`. CPython takes
the scheme to be the (lower-cased) text before the first `:` when it is a
valid scheme token (letter first, then letters/digits/`+`/`-`/`.`), and
the netloc to be the text after a leading `//` up to the next `/`, `?`
or `#`. -/

/-- Is `c` allowed in a URI scheme after the first character? -/
def isSchemeChar (c : Char) : Bool :=
  c.isAlpha || c.isDigit || c = '+' || c = '-' || c = '.'

/-- Split `url` into `(scheme, rest)` the way `urlsplit` does; scheme is
`""` when there is no valid scheme prefix. -/
def splitScheme (url : String) : String × String :=
  match url.data.findIdx? (· = ':') with
  | none => ("", url)
  | some i =>
    let pre := url.data.take i
    let post := url.data.drop (i + 1)
    if pre ≠ [] && (pre.headD ' ').isAlpha && pre.all isSchemeChar then
      (pyLower ⟨pre⟩, ⟨post⟩)
    else
      ("", url)

/-- The netloc of the post-scheme part: text after a leading `//` up to
the next `/`, `?` or `#`; `""` when there is no `//`. -/
def netlocOf (rest : String) : String :=
  if rest.data.take 2 = ['/', '/'] then
    ⟨(rest.data.drop 2).takeWhile (fun c => c ≠ '/' && c ≠ '?' && c ≠ '#')⟩
  else ""

/-- The `(scheme, netloc)` pair of `urlparse` that `_get_conn` consumes. -/
def urlparseSN (url : String) : String × String :=
  let (scheme, rest) := splitScheme url
  (scheme, netlocOf rest)

/-! ## Data model -/

/-- The kind of aiohttp connector built by `_get_conn`. -/
inductive ConnKind : Type
  | unixConn (path : String)
  | tcpConn
  deriving DecidableEq, Repr

/-- A connector object: its kind and its `closed` flag (aiohttp
`BaseConnector.closed` / `.close()`). -/
structure ConnObj where
  kind : ConnKind
  closed : Bool
  deriving DecidableEq, Repr

/-- The mutable fields of `RemoteRunnerClient` relevant to `_get_conn` and
`_close_conn`.  `conns` is a registry of every connector object the client
ever constructed (identified by its index), so that a discarded
connector's `closed` flag remains observable; `conn` is `self._conn` as an
index into the registry. -/
structure ClientState where
  loop : Option Nat
  conn : Option Nat
  addr : Option String
  conns : List ConnObj
  deriving DecidableEq, Repr

/-- The fresh client state built by `__init__`. -/
def initState : ClientState :=
  { loop := none, conn := none, addr := none, conns := [] }

/-- The ambient environment of a `_get_conn` call: the identity of the
event loop `asyncio.get_event_loop()` returns, which loops are closed
(`loop.is_closed()`), and `BentoMLContainer.remote_runner_mapping`. -/
structure LoopEnv where
  current : Nat
  closedLoops : List Nat
  serverMap : List (String × String)
  deriving DecidableEq, Repr

/-- Python dict lookup, `d[k]` as an `Option` (`none` models `KeyError`). -/
def dictGet (d : List (String × String)) (k : String) : Option String :=
  (d.find? (fun p => p.1 = k)).map Prod.snd

/-- `uri_to_path` (from `bentoml._internal.utils.uri`, not under `src/`).
Modelled from the spec: for a domain-socket address the resolver must
"extract filesystem path"; we take the path component after the
`scheme://` prefix. -/
def uri_to_path (uri : String) : String :=
  let (_, rest) := splitScheme uri
  ⟨(rest.data.drop 2).dropWhile (fun c => c ≠ '/')⟩

/-- The errors `_get_conn` can raise: a `KeyError` from the server-map
lookup, or the `ValueError` for an unsupported bind scheme. -/
inductive GetConnErr : Type
  | keyError (runnerName : String)
  | unsupportedScheme (msg : String)
  deriving DecidableEq, Repr

/-- The staleness test of `_get_conn`, in source order:
`self._loop is None or self._conn is None or self._conn.closed or
self._loop.is_closed()`. -/
def connStale (s : ClientState) (env : LoopEnv) : Bool :=
  s.loop.isNone || s.conn.isNone ||
    (match s.conn with
     | some i => ((s.conns.get? i).map ConnObj.closed).getD true
     | none => true) ||
    (match s.loop with
     | some l => env.closedLoops.contains l
     | none => true)

/-- `RemoteRunnerClient._get_conn` for runner `name`: when the state is
stale, rebinds the loop, resolves the bind URI from the server map and
constructs a fresh connector (appended to the registry, old entries
untouched); otherwise returns the cached connector.  The result carries
the new state and the returned connector's registry index. -/
def get_conn (name : String) (s : ClientState) (env : LoopEnv) :
    Except GetConnErr (ClientState × Nat) :=
  if connStale s env then
    match dictGet env.serverMap name with
    | none => .error (.keyError name)
    | some bind_uri =>
      let parsed := urlparseSN bind_uri
      if parsed.1 = "file" then
        let path := uri_to_path bind_uri
        let i := s.conns.length
        .ok ({ loop := some env.current,
               conn := some i,
               addr := some "http://127.0.0.1:8000",
               conns := s.conns ++ [{ kind := .unixConn path, closed := false }] },
             i)
      else if parsed.1 = "tcp" then
        let i := s.conns.length
        .ok ({ loop := some env.current,
               conn := some i,
               addr := some ("http://" ++ parsed.2),
               conns := s.conns ++ [{ kind := .tcpConn, closed := false }] },
             i)
      else
        .error (.unsupportedScheme ("Unsupported bind scheme: " ++ parsed.1))
  else
    .ok (s, s.conn.getD 0)

/-- `RemoteRunnerClient._close_conn`: `if self._conn: self._conn.close()`.
Closing marks the current connector's registry entry closed. -/
def close_conn (s : ClientState) : ClientState :=
  match s.conn with
  | none => s
  | some i =>
    match s.conns.get? i with
    | none => s
    | some c => { s with conns := s.conns.set i { c with closed := true } }

/-! ## `runner_timeout`

`BentoMLContainer.runners_config.get()` yields a nested dict whose keys
are runner names (mapping to per-runner tables) together with global keys
such as `"timeout"`.  We model such heterogeneous dict values explicitly. -/

/-- A value of the runners-config dict: an integer or a nested table. -/
inductive CfgVal : Type
  | num (n : Nat)
  | table (entries : List (String × CfgVal))
  deriving Repr

/-- Dict lookup over config entries (`none` models `KeyError`). -/
def cfgGet (d : List (String × CfgVal)) (k : String) : Option CfgVal :=
  (d.find? (fun p => p.1 = k)).map Prod.snd

/-- `RemoteRunnerClient.runner_timeout`: `if self._runner.name in
runner_cfg: return runner_cfg[self._runner.name]["timeout"] else: return
runner_cfg["timeout"]`.  `none` models the lookup raising (missing key or
indexing a non-table). -/
def runner_timeout (cfg : List (String × CfgVal)) (name : String) :
    Option CfgVal :=
  if (cfgGet cfg name).isSome then
    match cfgGet cfg name with
    | some (.table t) => cfgGet t "timeout"
    | _ => none
  else
    cfgGet cfg "timeout"

/-! ## Request encoding (`async_run_method`, pre-send half)

`Params`, its `map` and `all_equal` live in `bentoml._internal.runner.utils`,
which is not under `src/`; they are modelled from the spec.  The codec
`AutoContainer.to_payload` is an out-of-scope collaborator, so the encoder
is stated over the already-encoded payload bundle, abstracting each
payload by the batch size it reports. -/

/-- An argument bundle: positional values plus named values, as built by
`Params(*args, **kwargs)`. -/
structure Params (T : Type) where
  args : List T
  kwargs : List (String × T)
  deriving DecidableEq, Repr

/-- Modelled from the spec: `Params.map` (from `runner.utils`, absent from
`src/`) applies a function to every positional and keyword value,
preserving structure. -/
def Params.map {T U : Type} (f : T → U) (p : Params T) : Params U :=
  { args := p.args.map f, kwargs := p.kwargs.map (fun kv => (kv.1, f kv.2)) }

/-- Modelled from the spec: the values of a `Params` bundle, positional
values first, then keyword values. -/
def Params.items {T : Type} (p : Params T) : List T :=
  p.args ++ p.kwargs.map Prod.snd

/-- Modelled from the spec: `Params.all_equal` (from `runner.utils`,
absent from `src/`) — "every resulting payload must report the same batch
size": all values of the bundle are equal to one another. -/
def Params.all_equal {T : Type} [DecidableEq T] (p : Params T) : Bool :=
  match p.items with
  | [] => true
  | x :: xs => xs.all (fun y => y = x)

/-- `RunnerMethod.config`: the fields of `RunnerMethodConfig` the client
reads. -/
structure RunnerMethodConfig where
  batchable : Bool
  batch_dim : Nat × Nat
  deriving DecidableEq, Repr

/-- The `RunnerMethod` fields the client reads: its name and config. -/
structure RunnerMethod where
  name : String
  config : RunnerMethodConfig
  deriving DecidableEq, Repr

/-- The pre-send half of `async_run_method` (lines 138-152): given the
encoded payload bundle and each payload's reported `batch_size`, enforce
the batch-consistency guard and compute the request path; the `ValueError`
is raised before any request exists, so an `.error` result means no
request was ever built. -/
def buildRequestPath {P : Type} (batch_size : P → Option Nat)
    (method : RunnerMethod) (payload_params : Params P) :
    Except String String :=
  if method.config.batchable &&
      !(payload_params.map batch_size).all_equal then
    .error "All batchable arguments must have the same batch size."
  else
    .ok (if method.name = "__call__" then "" else method.name)

/-- The request URL of the POST: `f"\x7bself._addr\x7d/\x7bpath\x7d"`. -/
def requestUrl (addr path : String) : String :=
  addr ++ "/" ++ path

/-! ## Response decoding (`async_run_method`, post-send half) -/

/-- `PAYLOAD_META_HEADER` (from `runner.utils`, absent from `src/`).
Modelled from the spec: the name of the payload-metadata header; the
claims depend only on it being a fixed header key. -/
def PAYLOAD_META_HEADER : String := "Bento-Payload-Meta"

/-- The reserved vendor content-type prefix the decoder checks for. -/
def vendorCT : String := "application/vnd.bentoml."

/-- A received HTTP response as the decoder sees it: status, fully read
body (`body.decode()`), and a header lookup (`none` models `KeyError`). -/
structure WireResponse where
  status : Nat
  body : String
  headers : String → Option String

/-- The classified errors of the decoding half, one constructor per raise
site: non-200 status, each of the three header malformations (all raised
as `RemoteException` in the source), and the metadata JSON failure
(raised as `ValueError`). -/
inductive DecodeErr : Type
  | remoteStatus (msg : String)
  | metaHeaderMissing (msg : String)
  | contentTypeMissing (msg : String)
  | invalidContentType (msg : String)
  | metaDecode (msg : String)
  deriving DecidableEq, Repr

/-- The `Payload` constructed at line 195: raw body bytes, decoded
metadata, and the container/codec tag. -/
structure Payload (M : Type) where
  data : String
  meta : M
  container : String
  deriving DecidableEq, Repr

/-- The post-send half of `async_run_method` (lines 164-201), embedded
step for step.  `parseMeta` abstracts `json.loads` (stdlib collaborator):
`none` models `JSONDecodeError`.  The result is the `Payload` handed to
the external codec `AutoContainer.from_payload`. -/
def decodeResponse {M : Type} (parseMeta : String → Option M)
    (runnerName : String) (resp : WireResponse) :
    Except DecodeErr (Payload M) :=
  if resp.status ≠ 200 then
    .error (.remoteStatus
      ("An exception occurred in remote runner " ++ runnerName ++ ": [" ++
        toString resp.status ++ "] " ++ resp.body))
  else
    match resp.headers PAYLOAD_META_HEADER with
    | none =>
      .error (.metaHeaderMissing
        ("Bento payload decode error: " ++ PAYLOAD_META_HEADER ++
          " header not set. " ++
          "An exception might have occurred in the remote server." ++
          "[" ++ toString resp.status ++ "] " ++ resp.body))
    | some meta_header =>
      match resp.headers "Content-Type" with
      | none =>
        .error (.contentTypeMissing
          ("Bento payload decode error: Content-Type header not set. " ++
            "An exception might have occurred in the remote server." ++
            "[" ++ toString resp.status ++ "] " ++ resp.body))
      | some content_type =>
        if !pyStartswith (pyLower content_type) vendorCT then
          .error (.invalidContentType
            ("Bento payload decode error: invalid Content-Type \x27" ++
              content_type ++ "\x27."))
        else
          let container := pyStrip vendorCT.data content_type
          match parseMeta meta_header with
          | none =>
            .error (.metaDecode
              ("Bento payload decode error: " ++ meta_header))
          | some meta =>
            .ok { data := resp.body, meta := meta, container := container }

/-- `strContains hay needle`: `needle` occurs as a contiguous substring of
`hay` (the sense in which an error message "contains" a value). -/
def strContains (hay needle : String) : Prop :=
  List.IsInfix needle.data hay.data

instance (hay needle : String) : Decidable (strContains hay needle) :=
  inferInstanceAs (Decidable (List.IsInfix needle.data hay.data))

/-! ## Helper lemmas -/

theorem data_append (a b : String) : (a ++ b).data = a.data ++ b.data := rfl

theorem strContains_last (a b : String) : strContains (a ++ b) b :=
  ⟨a.data, [], by simp [data_append]⟩

theorem strContains_append_right (a b n : String) (h : strContains a n) :
    strContains (a ++ b) n := by
  obtain ⟨s, t, hst⟩ := h
  exact ⟨s, t ++ b.data, by rw [data_append, ← hst]; simp [List.append_assoc]⟩

/-! ## Claims -/

/-- C2: the claim states that the decoder obtains the container tag by
removing exactly the vendor prefix from the Content-Type (starts-with then
slice), so that the `Payload.container` equals the tag for every tag
string.  The code instead uses Python `str.strip(chars)` — a character-set
strip from both ends — so a 200 response with Content-Type
`application/vnd.bentoml.pandas.dataframe` yields container `s.datafr`,
not `pandas.dataframe`: the code contradicts the claimed (and spec-noted)
intent. -/
theorem C2_strip_is_not_slice :
    decodeResponse (fun _ => some ()) "r"
        ⟨200, "b", fun h => if h = "Content-Type"
          then some "application/vnd.bentoml.pandas.dataframe"
          else some "1"⟩ =
      .ok { data := "b", meta := (), container := "s.datafr" } ∧
    "s.datafr" ≠ "pandas.dataframe" :=
  ⟨rfl, by decide⟩

/-- C3: for every response whose status is not 200, the decoder raises the
remote-fault `RemoteException` whose message contains the runner name, the
observed status, and the response body — and it does so before any header
validation: the result is the same error for any two header maps. -/
theorem C3_non200_remote_fault {M : Type} (parseMeta : String → Option M)
    (name : String) (status : Nat) (body : String)
    (hs₁ hs₂ : String → Option String) (h : status ≠ 200) :
    decodeResponse parseMeta name ⟨status, body, hs₁⟩ =
      .error (.remoteStatus ("An exception occurred in remote runner " ++
        name ++ ": [" ++ toString status ++ "] " ++ body)) ∧
    decodeResponse parseMeta name ⟨status, body, hs₂⟩ =
      decodeResponse parseMeta name ⟨status, body, hs₁⟩ ∧
    strContains ("An exception occurred in remote runner " ++ name ++
      ": [" ++ toString status ++ "] " ++ body) name ∧
    strContains ("An exception occurred in remote runner " ++ name ++
      ": [" ++ toString status ++ "] " ++ body) (toString status) ∧
    strContains ("An exception occurred in remote runner " ++ name ++
      ": [" ++ toString status ++ "] " ++ body) body := by
  refine ⟨by simp [decodeResponse, h], by simp [decodeResponse, h], ?_, ?_, ?_⟩
  · exact strContains_append_right _ _ _ (strContains_append_right _ _ _
      (strContains_append_right _ _ _ (strContains_append_right _ _ _
        (strContains_last _ _))))
  · exact strContains_append_right _ _ _ (strContains_append_right _ _ _
      (strContains_last _ _))
  · exact strContains_last _ _

/-- C3 witness: a status-500 response with body `boom` produces the
remote-fault error, whose message contains `500` and `boom`, regardless of
headers being present or absent. -/
theorem C3_witness :
    (500 : Nat) ≠ 200 ∧
    (decodeResponse (fun s => some s) "r" ⟨500, "boom", fun _ => some "x"⟩ =
      .error (.remoteStatus
        "An exception occurred in remote runner r: [500] boom") ∧
    decodeResponse (fun s => some s) "r" ⟨500, "boom", fun _ => none⟩ =
      decodeResponse (fun s => some s) "r" ⟨500, "boom", fun _ => some "x"⟩ ∧
    strContains "An exception occurred in remote runner r: [500] boom" "r" ∧
    strContains "An exception occurred in remote runner r: [500] boom" "500" ∧
    strContains "An exception occurred in remote runner r: [500] boom" "boom") :=
  ⟨by decide,
   C3_non200_remote_fault (fun s => some s) "r" 500 "boom"
     (fun _ => some "x") (fun _ => none) (by decide)⟩

/-- C1 counterexample: the claim says a bind address with scheme `unix`
yields a domain-socket connector, but `_get_conn` matches the scheme
`file`; a fresh client whose server map binds the runner to
`unix:///run/sock.s` gets the unsupported-scheme `ValueError` instead of a
connector. -/
theorem C1_counterexample :
    get_conn "r" initState
        { current := 1, closedLoops := [],
          serverMap := [("r", "unix:///run/sock.s")] } =
      .error (.unsupportedScheme "Unsupported bind scheme: unix") := rfl

/-- C1 (amended): the domain-socket scheme is `file`, not `unix`: for
every runner whose bind address has scheme `file`, the resolver builds a
domain-socket connector with the placeholder authority
`http://127.0.0.1:8000`; for scheme `tcp` with `host:port` it builds a
networked connector with authority exactly `http://host:port`; and for
any other scheme (including `unix`) it raises the unsupported-scheme
`ValueError` at connector build time, building no connector. -/
theorem C1_scheme_dispatch (name : String) (s₁ s₂ s₃ : ClientState)
    (env₁ env₂ env₃ : LoopEnv) (u₁ u₂ u₃ nl₂ sch₃ nl₃ : String)
    (hst₁ : connStale s₁ env₁ = true)
    (hm₁ : dictGet env₁.serverMap name = some u₁)
    (hp₁ : (urlparseSN u₁).1 = "file")
    (hst₂ : connStale s₂ env₂ = true)
    (hm₂ : dictGet env₂.serverMap name = some u₂)
    (hp₂ : urlparseSN u₂ = ("tcp", nl₂))
    (hst₃ : connStale s₃ env₃ = true)
    (hm₃ : dictGet env₃.serverMap name = some u₃)
    (hp₃ : urlparseSN u₃ = (sch₃, nl₃))
    (hn₃f : sch₃ ≠ "file") (hn₃t : sch₃ ≠ "tcp") :
    get_conn name s₁ env₁ =
      .ok ({ loop := some env₁.current, conn := some s₁.conns.length,
             addr := some "http://127.0.0.1:8000",
             conns := s₁.conns ++
               [{ kind := .unixConn (uri_to_path u₁), closed := false }] },
           s₁.conns.length) ∧
    get_conn name s₂ env₂ =
      .ok ({ loop := some env₂.current, conn := some s₂.conns.length,
             addr := some ("http://" ++ nl₂),
             conns := s₂.conns ++ [{ kind := .tcpConn, closed := false }] },
           s₂.conns.length) ∧
    get_conn name s₃ env₃ =
      .error (.unsupportedScheme ("Unsupported bind scheme: " ++ sch₃)) := by
  refine ⟨?_, ?_, ?_⟩
  · simp [get_conn, hst₁, hm₁, hp₁]
  · simp [get_conn, hst₂, hm₂, hp₂]
  · simp [get_conn, hst₃, hm₃, hp₃, hn₃f, hn₃t]

/-- C1 witness: concrete `file`, `tcp` and `unix` bind addresses on a
fresh client exercise all three branches of the amended claim. -/
theorem C1_witness :
    connStale initState
        { current := 1, closedLoops := [],
          serverMap := [("r", "file:///run/sock.s")] } = true ∧
    (urlparseSN "file:///run/sock.s").1 = "file" ∧
    urlparseSN "tcp://host:8080" = ("tcp", "host:8080") ∧
    urlparseSN "unix:///run/sock.s" = ("unix", "") ∧
    (get_conn "r" initState
        { current := 1, closedLoops := [],
          serverMap := [("r", "file:///run/sock.s")] } =
      .ok ({ loop := some 1, conn := some 0,
             addr := some "http://127.0.0.1:8000",
             conns := [{ kind := .unixConn "/run/sock.s", closed := false }] },
           0) ∧
    get_conn "r" initState
        { current := 1, closedLoops := [],
          serverMap := [("r", "tcp://host:8080")] } =
      .ok ({ loop := some 1, conn := some 0,
             addr := some "http://host:8080",
             conns := [{ kind := .tcpConn, closed := false }] },
           0) ∧
    get_conn "r" initState
        { current := 1, closedLoops := [],
          serverMap := [("r", "unix:///run/sock.s")] } =
      .error (.unsupportedScheme "Unsupported bind scheme: unix")) :=
  ⟨by decide, by decide, by decide, by decide,
   C1_scheme_dispatch "r" initState initState initState _ _ _
     "file:///run/sock.s" "tcp://host:8080" "unix:///run/sock.s"
     "host:8080" "unix" ""
     (by decide) (by decide) (by decide) (by decide) (by decide) (by decide)
     (by decide) (by decide) (by decide) (by decide) (by decide)⟩

/-- C4: for a batchable method, the encoder raises the client-side
`ValueError` (before any request exists) exactly when the encoded
payloads report differing batch sizes; when all batch sizes agree no such
error is raised. -/
theorem C4_batch_size_guard {P : Type} (batch_size : P → Option Nat)
    (method : RunnerMethod) (payload_params : Params P)
    (hb : method.config.batchable = true) :
    buildRequestPath batch_size method payload_params =
        .error "All batchable arguments must have the same batch size." ↔
      (payload_params.map batch_size).all_equal = false := by
  unfold buildRequestPath
  rw [hb]
  cases h : (payload_params.map batch_size).all_equal <;> simp [h]

/-- C4 witness: a batchable method with payload batch sizes `[1, 2]`
fails with the batch-size `ValueError` (no request is built), while batch
sizes `[1, 1]` do not produce that error. -/
theorem C4_witness :
    (RunnerMethod.mk "pred" ⟨true, (0, 0)⟩).config.batchable = true ∧
    buildRequestPath (fun n : Nat => some n)
        (RunnerMethod.mk "pred" ⟨true, (0, 0)⟩) ⟨[1, 2], []⟩ =
      .error "All batchable arguments must have the same batch size." ∧
    buildRequestPath (fun n : Nat => some n)
        (RunnerMethod.mk "pred" ⟨true, (0, 0)⟩) ⟨[1, 1], []⟩ ≠
      .error "All batchable arguments must have the same batch size." :=
  ⟨rfl,
   (C4_batch_size_guard (fun n : Nat => some n)
      (RunnerMethod.mk "pred" ⟨true, (0, 0)⟩) ⟨[1, 2], []⟩ rfl).mpr (by decide),
   fun h => absurd
     ((C4_batch_size_guard (fun n : Nat => some n)
        (RunnerMethod.mk "pred" ⟨true, (0, 0)⟩) ⟨[1, 1], []⟩ rfl).mp h)
     (by decide)⟩

/-- C5: for every 200 response, a missing payload-metadata header, a
missing Content-Type header, and a Content-Type without the vendor prefix
each independently produce the corresponding protocol `RemoteException`,
checked in that order (the metadata-header check fires regardless of the
Content-Type, the Content-Type-presence check fires once metadata is
present, the prefix check fires once both are present). -/
theorem C5_protocol_errors {M : Type} (parseMeta : String → Option M)
    (name : String) (r₁ r₂ r₃ : WireResponse) (mh₂ mh₃ ct : String)
    (h₁s : r₁.status = 200)
    (h₁m : r₁.headers PAYLOAD_META_HEADER = none)
    (h₂s : r₂.status = 200)
    (h₂m : r₂.headers PAYLOAD_META_HEADER = some mh₂)
    (h₂c : r₂.headers "Content-Type" = none)
    (h₃s : r₃.status = 200)
    (h₃m : r₃.headers PAYLOAD_META_HEADER = some mh₃)
    (h₃c : r₃.headers "Content-Type" = some ct)
    (h₃p : pyStartswith (pyLower ct) vendorCT = false) :
    decodeResponse parseMeta name r₁ =
      .error (.metaHeaderMissing
        ("Bento payload decode error: " ++ PAYLOAD_META_HEADER ++
          " header not set. " ++
          "An exception might have occurred in the remote server." ++
          "[" ++ toString r₁.status ++ "] " ++ r₁.body)) ∧
    decodeResponse parseMeta name r₂ =
      .error (.contentTypeMissing
        ("Bento payload decode error: Content-Type header not set. " ++
          "An exception might have occurred in the remote server." ++
          "[" ++ toString r₂.status ++ "] " ++ r₂.body)) ∧
    decodeResponse parseMeta name r₃ =
      .error (.invalidContentType
        ("Bento payload decode error: invalid Content-Type \x27" ++ ct ++
          "\x27.")) := by
  refine ⟨?_, ?_, ?_⟩
  · simp [decodeResponse, h₁s, h₁m]
  · simp [decodeResponse, h₂s, h₂m, h₂c]
  · simp [decodeResponse, h₃s, h₃m, h₃c, h₃p]

/-- C5 witness: three concrete 200 responses — no headers at all, only
the metadata header, and both headers with Content-Type `text/html` —
produce the three protocol errors respectively. -/
theorem C5_witness :
    (⟨200, "B1", fun _ => none⟩ : WireResponse).headers PAYLOAD_META_HEADER
        = none ∧
    pyStartswith (pyLower "text/html") vendorCT = false ∧
    (decodeResponse (fun s => some s) "r" ⟨200, "B1", fun _ => none⟩ =
      .error (.metaHeaderMissing
        ("Bento payload decode error: Bento-Payload-Meta header not set. " ++
          "An exception might have occurred in the remote server.[200] B1")) ∧
    decodeResponse (fun s => some s) "r"
        ⟨200, "B2", fun h => if h = PAYLOAD_META_HEADER then some "m"
          else none⟩ =
      .error (.contentTypeMissing
        ("Bento payload decode error: Content-Type header not set. " ++
          "An exception might have occurred in the remote server.[200] B2")) ∧
    decodeResponse (fun s => some s) "r"
        ⟨200, "B3", fun h => if h = "Content-Type" then some "text/html"
          else some "m"⟩ =
      .error (.invalidContentType
        "Bento payload decode error: invalid Content-Type \x27text/html\x27.")) :=
  ⟨rfl, by decide,
   C5_protocol_errors (fun s => some s) "r"
     ⟨200, "B1", fun _ => none⟩
     ⟨200, "B2", fun h => if h = PAYLOAD_META_HEADER then some "m" else none⟩
     ⟨200, "B3", fun h => if h = "Content-Type" then some "text/html"
       else some "m"⟩
     "m" "m" "text/html"
     rfl rfl rfl (by decide) (by decide) rfl (by decide) (by decide)
     (by decide)⟩

/-- C6 counterexample: the claim says every protocol error message
includes the observed status and the raw body, but the wrong-prefix error
message is built only from the Content-Type value: a 200 response with
body `boom`, metadata header present and Content-Type `text/html`
produces a message containing neither `200` nor `boom`. -/
theorem C6_counterexample :
    decodeResponse (fun s => some s) "r"
        ⟨200, "boom", fun h => if h = "Content-Type" then some "text/html"
          else some "m"⟩ =
      .error (.invalidContentType
        "Bento payload decode error: invalid Content-Type \x27text/html\x27.") ∧
    ¬ strContains
        "Bento payload decode error: invalid Content-Type \x27text/html\x27."
        "200" ∧
    ¬ strContains
        "Bento payload decode error: invalid Content-Type \x27text/html\x27."
        "boom" :=
  ⟨rfl, by decide, by decide⟩

/-- C6 (amended): the missing-metadata-header and missing-Content-Type
protocol errors include the observed status and the raw body in their
message; the wrong-prefix protocol error instead includes only the
offending Content-Type value. -/
theorem C6_error_message_contents {M : Type} (parseMeta : String → Option M)
    (name : String) (r₁ r₂ r₃ : WireResponse) (mh₂ mh₃ ct : String)
    (h₁s : r₁.status = 200)
    (h₁m : r₁.headers PAYLOAD_META_HEADER = none)
    (h₂s : r₂.status = 200)
    (h₂m : r₂.headers PAYLOAD_META_HEADER = some mh₂)
    (h₂c : r₂.headers "Content-Type" = none)
    (h₃s : r₃.status = 200)
    (h₃m : r₃.headers PAYLOAD_META_HEADER = some mh₃)
    (h₃c : r₃.headers "Content-Type" = some ct)
    (h₃p : pyStartswith (pyLower ct) vendorCT = false) :
    (decodeResponse parseMeta name r₁ =
      .error (.metaHeaderMissing
        ("Bento payload decode error: " ++ PAYLOAD_META_HEADER ++
          " header not set. " ++
          "An exception might have occurred in the remote server." ++
          "[" ++ toString r₁.status ++ "] " ++ r₁.body)) ∧
     strContains
      ("Bento payload decode error: " ++ PAYLOAD_META_HEADER ++
        " header not set. " ++
        "An exception might have occurred in the remote server." ++
        "[" ++ toString r₁.status ++ "] " ++ r₁.body)
      (toString r₁.status) ∧
     strContains
      ("Bento payload decode error: " ++ PAYLOAD_META_HEADER ++
        " header not set. " ++
        "An exception might have occurred in the remote server." ++
        "[" ++ toString r₁.status ++ "] " ++ r₁.body)
      r₁.body) ∧
    (decodeResponse parseMeta name r₂ =
      .error (.contentTypeMissing
        ("Bento payload decode error: Content-Type header not set. " ++
          "An exception might have occurred in the remote server." ++
          "[" ++ toString r₂.status ++ "] " ++ r₂.body)) ∧
     strContains
      ("Bento payload decode error: Content-Type header not set. " ++
        "An exception might have occurred in the remote server." ++
        "[" ++ toString r₂.status ++ "] " ++ r₂.body)
      (toString r₂.status) ∧
     strContains
      ("Bento payload decode error: Content-Type header not set. " ++
        "An exception might have occurred in the remote server." ++
        "[" ++ toString r₂.status ++ "] " ++ r₂.body)
      r₂.body) ∧
    (decodeResponse parseMeta name r₃ =
      .error (.invalidContentType
        ("Bento payload decode error: invalid Content-Type \x27" ++ ct ++
          "\x27.")) ∧
     strContains
      ("Bento payload decode error: invalid Content-Type \x27" ++ ct ++
        "\x27.")
      ct) := by
  refine ⟨⟨?_, ?_, ?_⟩, ⟨?_, ?_, ?_⟩, ?_, ?_⟩
  · simp [decodeResponse, h₁s, h₁m]
  · exact strContains_append_right _ _ _ (strContains_append_right _ _ _
      (strContains_last _ _))
  · exact strContains_last _ _
  · simp [decodeResponse, h₂s, h₂m, h₂c]
  · exact strContains_append_right _ _ _ (strContains_append_right _ _ _
      (strContains_last _ _))
  · exact strContains_last _ _
  · simp [decodeResponse, h₃s, h₃m, h₃c, h₃p]
  · exact strContains_append_right _ _ _ (strContains_last _ _)

/-- C6 witness: the same style of concrete 200 responses instantiates the
amended message-content claim: status and body appear in the first two
messages, the Content-Type value in the third. -/
theorem C6_witness :
    (decodeResponse (fun s => some s) "r" ⟨200, "B1", fun _ => none⟩ =
      .error (.metaHeaderMissing
        ("Bento payload decode error: Bento-Payload-Meta header not set. " ++
          "An exception might have occurred in the remote server.[200] B1")) ∧
     strContains
      ("Bento payload decode error: Bento-Payload-Meta header not set. " ++
        "An exception might have occurred in the remote server.[200] B1")
      "200" ∧
     strContains
      ("Bento payload decode error: Bento-Payload-Meta header not set. " ++
        "An exception might have occurred in the remote server.[200] B1")
      "B1") ∧
    (decodeResponse (fun s => some s) "r"
        ⟨200, "B2", fun h => if h = PAYLOAD_META_HEADER then some "m"
          else none⟩ =
      .error (.contentTypeMissing
        ("Bento payload decode error: Content-Type header not set. " ++
          "An exception might have occurred in the remote server.[200] B2")) ∧
     strContains
      ("Bento payload decode error: Content-Type header not set. " ++
        "An exception might have occurred in the remote server.[200] B2")
      "200" ∧
     strContains
      ("Bento payload decode error: Content-Type header not set. " ++
        "An exception might have occurred in the remote server.[200] B2")
      "B2") ∧
    (decodeResponse (fun s => some s) "r"
        ⟨200, "B3", fun h => if h = "Content-Type" then some "text/html"
          else some "m"⟩ =
      .error (.invalidContentType
        "Bento payload decode error: invalid Content-Type \x27text/html\x27.") ∧
     strContains
      "Bento payload decode error: invalid Content-Type \x27text/html\x27."
      "text/html") :=
  C6_error_message_contents (fun s => some s) "r"
    ⟨200, "B1", fun _ => none⟩
    ⟨200, "B2", fun h => if h = PAYLOAD_META_HEADER then some "m" else none⟩
    ⟨200, "B3", fun h => if h = "Content-Type" then some "text/html"
      else some "m"⟩
    "m" "m" "text/html"
    rfl rfl rfl (by decide) (by decide) rfl (by decide) (by decide)
    (by decide)

/-- C7 counterexample: the claim says a rebuild closes the previous
connector before discarding it, but `_get_conn` only overwrites
`self._conn`: a client holding an open connector (registry entry 0) under
a now-closed loop rebuilds to a new connector (entry 1) while entry 0 is
left with `closed := false` — the previous connector is leaked, not
closed. -/
theorem C7_counterexample :
    get_conn "r"
        { loop := some 1, conn := some 0, addr := some "http://h:1",
          conns := [{ kind := .tcpConn, closed := false }] }
        { current := 2, closedLoops := [1],
          serverMap := [("r", "tcp://h:1")] } =
      .ok ({ loop := some 2, conn := some 1, addr := some "http://h:1",
             conns := [{ kind := .tcpConn, closed := false },
                       { kind := .tcpConn, closed := false }] },
           1) := rfl

/-- C7 (amended): on rebuild the previous connector is discarded without
being closed — every pre-existing registry entry (its `closed` flag
included) survives `_get_conn` unchanged; a connector is only marked
closed by `_close_conn`, which the client invokes at destruction. -/
theorem C7_rebuild_preserves_old_conn (name : String) (s s' : ClientState)
    (env : LoopEnv) (k i j : Nat) (c : ConnObj)
    (hok : get_conn name s env = .ok (s', k))
    (hi : i < s.conns.length)
    (hj : s.conn = some j)
    (hc : s.conns.get? j = some c) :
    s'.conns.get? i = s.conns.get? i ∧
    (close_conn s).conns.get? j = some { c with closed := true } := by
  constructor
  · unfold get_conn at hok
    split at hok
    · cases hd : dictGet env.serverMap name with
      | none => rw [hd] at hok; cases hok
      | some uri =>
        rw [hd] at hok
        simp only at hok
        split at hok
        · simp only [Except.ok.injEq, Prod.mk.injEq] at hok
          rw [← hok.1]
          exact List.get?_append hi
        · split at hok
          · simp only [Except.ok.injEq, Prod.mk.injEq] at hok
            rw [← hok.1]
            exact List.get?_append hi
          · cases hok
    · simp only [Except.ok.injEq, Prod.mk.injEq] at hok
      rw [← hok.1]
  · have hlt : j < s.conns.length := by
      by_contra hle
      rw [List.get?_eq_none.mpr (Nat.le_of_not_lt hle)] at hc
      cases hc
    unfold close_conn
    rw [hj]
    simp only [hc]
    exact List.get?_set_eq_of_lt _ hlt

/-- C7 witness: the leak scenario of the counterexample instantiates the
amended claim: entry 0 is unchanged across the rebuild, and `_close_conn`
is what marks the current connector closed. -/
theorem C7_witness :
    get_conn "r"
        { loop := some 1, conn := some 0, addr := some "http://h:1",
          conns := [{ kind := .tcpConn, closed := false }] }
        { current := 2, closedLoops := [1],
          serverMap := [("r", "tcp://h:1")] } =
      .ok ({ loop := some 2, conn := some 1, addr := some "http://h:1",
             conns := [{ kind := .tcpConn, closed := false },
                       { kind := .tcpConn, closed := false }] },
           1) ∧
    (({ loop := some 2, conn := some 1, addr := some "http://h:1",
        conns := [{ kind := .tcpConn, closed := false },
                  { kind := .tcpConn, closed := false }] } :
          ClientState).conns.get? 0 =
      ([{ kind := .tcpConn, closed := false }] : List ConnObj).get? 0 ∧
    (close_conn
        { loop := some 1, conn := some 0, addr := some "http://h:1",
          conns := [{ kind := .tcpConn, closed := false }] }).conns.get? 0 =
      some { kind := .tcpConn, closed := true }) :=
  ⟨rfl,
   C7_rebuild_preserves_old_conn "r"
     { loop := some 1, conn := some 0, addr := some "http://h:1",
       conns := [{ kind := .tcpConn, closed := false }] }
     { loop := some 2, conn := some 1, addr := some "http://h:1",
       conns := [{ kind := .tcpConn, closed := false },
                 { kind := .tcpConn, closed := false }] }
     { current := 2, closedLoops := [1], serverMap := [("r", "tcp://h:1")] }
     1 0 0 { kind := .tcpConn, closed := false }
     rfl (by decide) rfl rfl⟩

/-- C8: the session timeout comes from the per-runner configuration entry
when one exists for the runner name (the per-runner key takes precedence),
and otherwise from the process-wide global `timeout` entry. -/
theorem C8_timeout_lookup (cfg₁ cfg₂ : List (String × CfgVal))
    (name : String) (t : List (String × CfgVal))
    (h₁ : cfgGet cfg₁ name = some (.table t))
    (h₂ : cfgGet cfg₂ name = none) :
    runner_timeout cfg₁ name = cfgGet t "timeout" ∧
    runner_timeout cfg₂ name = cfgGet cfg₂ "timeout" := by
  constructor
  · unfold runner_timeout
    rw [h₁]
    simp
  · unfold runner_timeout
    rw [h₂]
    simp

/-- C8 witness: with both a per-runner entry (`timeout = 10`) and a
global entry (`timeout = 60`) present, runner `r` gets 10; with only the
global entry, it gets 60. -/
theorem C8_witness :
    runner_timeout
        [("r", CfgVal.table [("timeout", CfgVal.num 10)]),
         ("timeout", CfgVal.num 60)] "r" = some (CfgVal.num 10) ∧
    runner_timeout [("timeout", CfgVal.num 60)] "r" =
      some (CfgVal.num 60) :=
  C8_timeout_lookup
    [("r", CfgVal.table [("timeout", CfgVal.num 10)]),
     ("timeout", CfgVal.num 60)]
    [("timeout", CfgVal.num 60)]
    "r" [("timeout", CfgVal.num 10)] rfl rfl

/-- C9: whenever the encoder produces a request, the path is the empty
string (so the request URL is the root `addr/`) when the method is the
runner's default call `__call__`, and otherwise exactly the method
name. -/
theorem C9_request_path {P : Type} (batch_size : P → Option Nat)
    (m₁ m₂ : RunnerMethod) (pp₁ pp₂ : Params P) (p₁ p₂ addr : String)
    (h₁ : m₁.name = "__call__") (h₂ : m₂.name ≠ "__call__")
    (hok₁ : buildRequestPath batch_size m₁ pp₁ = .ok p₁)
    (hok₂ : buildRequestPath batch_size m₂ pp₂ = .ok p₂) :
    p₁ = "" ∧ requestUrl addr p₁ = addr ++ "/" ∧ p₂ = m₂.name := by
  unfold buildRequestPath at hok₁ hok₂
  rw [h₁] at hok₁
  rw [if_neg h₂] at hok₂
  simp only [if_pos rfl] at hok₁
  split at hok₁
  · cases hok₁
  · split at hok₂
    · cases hok₂
    · simp only [Except.ok.injEq] at hok₁ hok₂
      refine ⟨hok₁.symm, ?_, hok₂.symm⟩
      rw [← hok₁]
      simp [requestUrl]

/-- C9 witness: the default method `__call__` yields path `""` and root
URL `http://h:1/`; a method named `predict` yields path `predict`. -/
theorem C9_witness :
    ("__call__" : String) = "__call__" ∧
    ("predict" : String) ≠ "__call__" ∧
    buildRequestPath (fun n : Nat => some n)
        (RunnerMethod.mk "__call__" ⟨false, (0, 0)⟩) ⟨[1], []⟩ = .ok "" ∧
    buildRequestPath (fun n : Nat => some n)
        (RunnerMethod.mk "predict" ⟨false, (0, 0)⟩) ⟨[1], []⟩ =
      .ok "predict" ∧
    ("" = "" ∧ requestUrl "http://h:1" "" = "http://h:1" ++ "/" ∧
      "predict" = "predict") :=
  ⟨rfl, by decide, rfl, rfl,
   C9_request_path (fun n : Nat => some n)
     (RunnerMethod.mk "__call__" ⟨false, (0, 0)⟩)
     (RunnerMethod.mk "predict" ⟨false, (0, 0)⟩)
     ⟨[1], []⟩ ⟨[1], []⟩ "" "predict" "http://h:1"
     rfl (by decide) rfl rfl⟩

/-- C10: the vendor-prefix check is case-insensitive — for every 200
response with both headers whose lower-cased Content-Type starts with
`application/vnd.bentoml.`, no wrong-prefix error is raised and the
decoder proceeds, deriving the container tag from the original,
non-lowercased Content-Type string. -/
theorem C10_case_insensitive_vendor_check {M : Type}
    (parseMeta : String → Option M) (name body mh ct : String)
    (hs : String → Option String) (meta : M)
    (hm : hs PAYLOAD_META_HEADER = some mh)
    (hc : hs "Content-Type" = some ct)
    (hp : pyStartswith (pyLower ct) vendorCT = true)
    (hparse : parseMeta mh = some meta) :
    decodeResponse parseMeta name ⟨200, body, hs⟩ =
      .ok { data := body, meta := meta,
            container := pyStrip vendorCT.data ct } := by
  simp [decodeResponse, hm, hc, hp, hparse]

/-- C10 witness: Content-Type `Application/VND.BentoML.Json` (mixed case)
passes the prefix check, and the container is derived from the original
string — the character-set strip leaves `Application/VND.BentoML.Js`
because the upper-case characters are not in the strip set. -/
theorem C10_witness :
    pyStartswith (pyLower "Application/VND.BentoML.Json") vendorCT = true ∧
    decodeResponse (fun s => some s) "r"
        ⟨200, "b", fun h => if h = "Content-Type"
          then some "Application/VND.BentoML.Json" else some "m"⟩ =
      .ok { data := "b", meta := "m",
            container := "Application/VND.BentoML.Js" } :=
  ⟨by decide,
   C10_case_insensitive_vendor_check (fun s => some s) "r" "b" "m"
     "Application/VND.BentoML.Json"
     (fun h => if h = "Content-Type"
       then some "Application/VND.BentoML.Json" else some "m")
     "m" (by decide) (by decide) (by decide) rfl⟩

end Remote
